import Mathlib

/-!
Verification development for the voice-note-taking repository.

The repository has two programs:
* a standalone CLI voice pipeline (microphone → streaming transcription
  websocket → chat-completion note generator), whose session state and
  event handlers are embedded below as pure functions over a `Session`
  record plus an artifact log; and
* a small HTTP collaborator (`server.js`) storing users, tokens and notes
  in a JSON document, embedded as a pure request handler over a `Db` record.

External effects (file writes, the chat-completion call) are modelled as
emitted `Artifact` values; external crypto (sha256) is an abstract
function parameter.
-/

namespace VoiceNotes

/-- Readiness states of the websocket channel (the `ws` library constants). -/
inductive WsReady where
  | connecting
  | open
  | closing
  | closed
deriving DecidableEq, Repr

/-- The mutable module-level session state of the CLI program:
`stopRequested`, `recordedFrames`, `fullTranscript`, plus the `ws` and
`micInstance` globals (`none` models JavaScript `null`). -/
structure Session where
  stopRequested : Bool
  recordedFrames : List (List Nat)
  fullTranscript : String
  ws : Option WsReady
  micRunning : Bool
deriving DecidableEq, Repr

/-- Initial state of the globals at module load. -/
def initialSession : Session :=
  { stopRequested := false
    recordedFrames := []
    fullTranscript := ""
    ws := none
    micRunning := false }

/-- Externally visible side effects of the handlers: a notes markdown file
written from a transcript, or a WAV audio file written with the given bytes. -/
inductive Artifact where
  | notes (transcript : String)
  | audio (bytes : List Nat)
deriving DecidableEq, Repr

/-- Sample rate constant (`CONNECTION_PARAMS.sample_rate`). -/
def SAMPLE_RATE : Nat := 16000

/-- Channel count constant (`CHANNELS`). -/
def CHANNELS : Nat := 1

/-- Little-endian 16-bit write (`Buffer.writeUInt16LE`): two bytes. -/
def writeUInt16LE (v : Nat) : List Nat :=
  [v % 256, v / 256 % 256]

/-- Little-endian 32-bit write (`Buffer.writeUInt32LE`): four bytes. -/
def writeUInt32LE (v : Nat) : List Nat :=
  [v % 256, v / 256 % 256, v / 65536 % 256, v / 16777216 % 256]

/-- ASCII bytes of a string (`buffer.write(s, off)` with ascii content). -/
def asciiBytes (s : String) : List Nat :=
  s.data.map Char.toNat

/-- The 44-byte canonical WAV header built by `createWavHeader`:
RIFF chunk with `ChunkSize = 36 + dataLength`, fmt chunk with PCM format 1,
channel count, sample rate, byte rate, block align and 16 bits per sample,
then the data chunk header with `Subchunk2Size = dataLength`. -/
def createWavHeader (sampleRate channels dataLength : Nat) : List Nat :=
  asciiBytes "RIFF" ++ writeUInt32LE (36 + dataLength) ++ asciiBytes "WAVE" ++
  asciiBytes "fmt " ++ writeUInt32LE 16 ++ writeUInt16LE 1 ++
  writeUInt16LE channels ++ writeUInt32LE sampleRate ++
  writeUInt32LE (sampleRate * channels * 2) ++ writeUInt16LE (channels * 2) ++
  writeUInt16LE 16 ++
  asciiBytes "data" ++ writeUInt32LE dataLength

/-- Outcome of the WAV save step: either the explicit no-data result or the
bytes of the file written. -/
inductive WavOutcome where
  | noData
  | file (bytes : List Nat)
deriving DecidableEq, Repr

/-- The body of `saveWavFile`, parameterised over the frames and audio
configuration: empty frame list yields the explicit no-data outcome;
otherwise the frames are concatenated in order and prefixed with the
44-byte header. -/
def encodeWav (frames : List (List Nat)) (sampleRate channels : Nat) : WavOutcome :=
  if frames.length = 0 then
    WavOutcome.noData
  else
    let audioData := frames.flatten
    let dataLength := audioData.length
    let wavHeader := createWavHeader sampleRate channels dataLength
    WavOutcome.file (wavHeader ++ audioData)

/-- `saveWavFile` as in the source: uses the recorded frames with the fixed
`SAMPLE_RATE` and `CHANNELS` configuration. -/
def saveWavFile (frames : List (List Nat)) : WavOutcome :=
  encodeWav frames SAMPLE_RATE CHANNELS

/-- Whitespace characters removed by `String.prototype.trim`. -/
def isJsSpace (c : Char) : Bool :=
  c = ' ' ∨ c = '\t' ∨ c = '\n' ∨ c = '\r'

/-- JavaScript `s.trim()`: whitespace removed from both ends. -/
def trimString (s : String) : String :=
  String.mk (((s.data.dropWhile isJsSpace).reverse.dropWhile isJsSpace).reverse)

/-- `generateNotesFromTranscript`: a blank (whitespace-only) transcript is
rejected with no artifact; otherwise the chat completion is invoked and the
returned notes are written as one markdown artifact. -/
def generateNotesFromTranscript (transcript : String) : List Artifact :=
  if trimString transcript = "" then []
  else [Artifact.notes transcript]

/-- A parsed inbound JSON message: its `type` discriminant and the fields
the handlers read (`transcript`, `turn_is_formatted`). -/
structure ParsedMsg where
  type : String
  transcript : Option String
  turn_is_formatted : Bool
deriving DecidableEq, Repr

/-- An inbound channel message: either malformed (JSON.parse throws) or a
parsed object. -/
inductive InboundMessage where
  | malformed
  | parsed (m : ParsedMsg)
deriving DecidableEq, Repr

/-- The `ws.on("message")` handler: malformed payloads are caught, logged and
dropped; `Begin` only logs; `Turn` appends `transcript + " "` to
`fullTranscript` when `turn_is_formatted`, otherwise only displays it;
`Termination` generates notes from the accumulated transcript when it is
non-blank; any other discriminant falls through all branches as a no-op. -/
def handleMessage (s : Session) (msg : InboundMessage) : Session × List Artifact :=
  match msg with
  | InboundMessage.malformed => (s, [])
  | InboundMessage.parsed m =>
    if m.type = "Begin" then
      (s, [])
    else if m.type = "Turn" then
      let transcript := m.transcript.getD ""
      if m.turn_is_formatted then
        ({ s with fullTranscript := s.fullTranscript ++ transcript ++ " " }, [])
      else
        (s, [])
    else if m.type = "Termination" then
      if trimString s.fullTranscript ≠ "" then
        (s, generateNotesFromTranscript s.fullTranscript)
      else
        (s, [])
    else
      (s, [])

/-- Fold of `handleMessage` over a message sequence, accumulating the
emitted artifacts in order. -/
def processMessages (s : Session) : List InboundMessage → Session × List Artifact
  | [] => (s, [])
  | msg :: rest =>
    let (s1, a1) := handleMessage s msg
    let (s2, a2) := processMessages s1 rest
    (s2, a1 ++ a2)

/-- The `cleanup` routine: sets `stopRequested`, generates notes from a
non-blank transcript, saves the WAV file, stops the microphone, and closes
the websocket (nulling `ws` only when it was open or connecting). -/
def cleanup (s : Session) : Session × List Artifact :=
  let s1 := { s with stopRequested := true }
  let notesArts :=
    if trimString s1.fullTranscript ≠ "" then generateNotesFromTranscript s1.fullTranscript
    else []
  let audioArts :=
    match saveWavFile s1.recordedFrames with
    | WavOutcome.noData => []
    | WavOutcome.file bytes => [Artifact.audio bytes]
  let s2 := { s1 with micRunning := false }
  let s3 :=
    match s2.ws with
    | some r =>
      if r = WsReady.open ∨ r = WsReady.connecting then { s2 with ws := none }
      else s2
    | none => s2
  (s3, notesArts ++ audioArts)

/-- The `ws.on("close")` handler: generates notes from a non-blank
transcript, then runs `cleanup`. -/
def handleClose (s : Session) : Session × List Artifact :=
  let notesArts :=
    if trimString s.fullTranscript ≠ "" then generateNotesFromTranscript s.fullTranscript
    else []
  let (s1, a1) := cleanup s
  (s1, notesArts ++ a1)

/-- The `ws.on("error")` handler: logs and runs `cleanup`. -/
def handleError (s : Session) : Session × List Artifact :=
  cleanup s

/-- The `SIGINT`/`SIGTERM` handler: logs and runs `cleanup` (then exits 0
after a grace delay). -/
def handleSignal (s : Session) : Session × List Artifact :=
  cleanup s

/-- A `Termination` message as received from the channel. -/
def terminationMsg : InboundMessage :=
  InboundMessage.parsed { type := "Termination", transcript := none, turn_is_formatted := false }

/-- The four possible first shutdown triggers of a session. -/
inductive ShutdownTrigger where
  | termination
  | close
  | error
  | signal
deriving DecidableEq, Repr

/-- The handler sequence the program executes for each first trigger: a
`Termination` message is handled and then the remote peer closes the
channel, firing the close handler; a remote close fires the close handler
directly; a channel error or an OS signal runs `cleanup`. -/
def shutdownRun (t : ShutdownTrigger) (s : Session) : Session × List Artifact :=
  match t with
  | ShutdownTrigger.termination =>
    let (s1, a1) := handleMessage s terminationMsg
    let (s2, a2) := handleClose s1
    (s2, a1 ++ a2)
  | ShutdownTrigger.close => handleClose s
  | ShutdownTrigger.error => handleError s
  | ShutdownTrigger.signal => handleSignal s

/-- Number of notes artifacts in an artifact log. -/
def notesCount (arts : List Artifact) : Nat :=
  (arts.filter fun a => match a with | Artifact.notes _ => true | _ => false).length

/-- Number of audio artifacts in an artifact log. -/
def audioCount (arts : List Artifact) : Nat :=
  (arts.filter fun a => match a with | Artifact.audio _ => true | _ => false).length

/-- The `micInputStream.on("data")` handler: the frame is appended to
`recordedFrames` and sent on the channel exactly when `ws` is non-null,
its ready state is OPEN and `stopRequested` is false; the second component
is the list of frames forwarded to the channel. -/
def handleFrame (s : Session) (data : List Nat) : Session × List (List Nat) :=
  if s.ws = some WsReady.open ∧ s.stopRequested = false then
    ({ s with recordedFrames := s.recordedFrames ++ [data] }, [data])
  else
    (s, [])

/-- Fold of `handleFrame` over a frame arrival sequence, accumulating the
forwarded frames in order. -/
def processFrames (s : Session) : List (List Nat) → Session × List (List Nat)
  | [] => (s, [])
  | f :: fs =>
    let (s1, sent1) := handleFrame s f
    let (s2, sent2) := processFrames s1 fs
    (s2, sent1 ++ sent2)

/-- A `Turn` event carrying `text`, marked final when `final` is true
(the source reads the final marker from `turn_is_formatted`). -/
def mkTurn (text : String) (final : Bool) : InboundMessage :=
  InboundMessage.parsed { type := "Turn", transcript := some text, turn_is_formatted := final }

/-- A `Begin` event. -/
def beginMsg : InboundMessage :=
  InboundMessage.parsed { type := "Begin", transcript := none, turn_is_formatted := false }

/-- Modelled from the spec's words (refinement target for the transcript
invariant): the concatenation, in arrival order, of the text of exactly the
turns marked final, each followed by a single space. -/
def specFinalConcat : List (String × Bool) → String
  | [] => ""
  | (t, f) :: rest => (if f then t ++ " " else "") ++ specFinalConcat rest

/-- A session that has accumulated a non-empty transcript and one recorded
audio frame, with the channel open. -/
def sessionBM : Session :=
  { stopRequested := false
    recordedFrames := [[0, 1]]
    fullTranscript := "buy milk "
    ws := some WsReady.open
    micRunning := true }

/-- Little-endian 16-bit read at byte offset `i` of an encoded file. -/
def readUInt16LE (w : List Nat) (i : Nat) : Nat :=
  w.getD i 0 + 256 * w.getD (i + 1) 0

/-- Little-endian 32-bit read at byte offset `i` of an encoded file. -/
def readUInt32LE (w : List Nat) (i : Nat) : Nat :=
  w.getD i 0 + 256 * w.getD (i + 1) 0 + 65536 * w.getD (i + 2) 0 +
    16777216 * w.getD (i + 3) 0

/-- The environment variables the CLI reads at startup; `none` models an
unset variable. -/
structure Env where
  assemblyaiApiKey : Option String
  openaiApiKey : Option String
deriving DecidableEq, Repr

/-- `process.env.ASSEMBLYAI_API_KEY || "YOUR_ASSEMBLYAI_API_KEY"`. -/
def effectiveAssemblyKey (e : Env) : String :=
  e.assemblyaiApiKey.getD "YOUR_ASSEMBLYAI_API_KEY"

/-- `process.env.OPENAI_API_KEY || "YOUR_OPENAI_API_KEY"`. -/
def effectiveOpenaiKey (e : Env) : String :=
  e.openaiApiKey.getD "YOUR_OPENAI_API_KEY"

/-- Observable outcome of the startup path of `run()`: whether a websocket
connection was attempted, whether the microphone was started, the error
message printed (if any), and the process exit status. -/
structure StartResult where
  connectionAttempted : Bool
  micStarted : Bool
  errorMessage : Option String
  exitCode : Nat
deriving DecidableEq, Repr

/-- The credential pre-flight of `run()`: a key left at its placeholder
makes `run` print an error and return before `new WebSocket(...)`; the
event loop then has nothing pending, so the process exits with the default
status 0. Otherwise the connection is attempted and, on open, the
microphone is started. -/
def runStart (e : Env) : StartResult :=
  if effectiveAssemblyKey e = "YOUR_ASSEMBLYAI_API_KEY" then
    { connectionAttempted := false
      micStarted := false
      errorMessage := some "Please set your AssemblyAI API key via the ASSEMBLYAI_API_KEY environment variable."
      exitCode := 0 }
  else if effectiveOpenaiKey e = "YOUR_OPENAI_API_KEY" then
    { connectionAttempted := false
      micStarted := false
      errorMessage := some "Please set your OpenAI API key via the OPENAI_API_KEY environment variable."
      exitCode := 0 }
  else
    { connectionAttempted := true
      micStarted := true
      errorMessage := none
      exitCode := 0 }

end VoiceNotes

namespace NotesServer

/-- A registered user record as stored in `db.users`. -/
structure User where
  id : String
  username : String
  passwordHash : String
deriving DecidableEq, Repr

/-- A stored note record as appended to `db.notes`. -/
structure Note where
  id : String
  userId : String
  transcript : String
  notes : String
  createdAt : Nat
deriving DecidableEq, Repr

/-- The persisted document: users, notes, and the token → userId map
(modelled as an association list with newest binding first; `db.tokens[t]`
is the first binding for `t`). -/
structure Db where
  users : List User
  notes : List Note
  tokens : List (String × String)
deriving DecidableEq, Repr

/-- The empty database the server starts from when no document exists. -/
def emptyDb : Db :=
  { users := [], notes := [], tokens := [] }

/-- JavaScript truthiness for an optional string field of a parsed JSON
body: `undefined` (missing) and the empty string are falsy. -/
def falsyStr (o : Option String) : Bool :=
  match o with
  | none => true
  | some s => s = ""

/-- The fields of a parsed request body that the handlers destructure. -/
structure Body where
  username : Option String
  password : Option String
  transcript : Option String
deriving DecidableEq, Repr

/-- HTTP methods used by the server routes. -/
inductive Method where
  | GET
  | POST
deriving DecidableEq, Repr

/-- An inbound HTTP request: method, url, optional Authorization header,
and the body (`none` models a payload `parseBody` rejects as invalid JSON). -/
structure Request where
  method : Method
  url : String
  authorization : Option String
  body : Option Body
deriving DecidableEq, Repr

/-- The JSON payload of a response, by shape. -/
inductive ResponseBody where
  | error (msg : String)
  | registered (id username : String)
  | token (t : String)
  | note (n : Note)
  | noteList (ns : List Note)
deriving DecidableEq, Repr

/-- An HTTP response: status code and JSON payload. -/
structure Response where
  status : Nat
  body : ResponseBody
deriving DecidableEq, Repr

/-- Fresh values the handler draws from the outside world for one request:
`crypto.randomUUID()`, `crypto.randomBytes(16).toString("hex")`, and
`Date.now()`. -/
structure Fresh where
  newId : String
  newToken : String
  now : Nat
deriving DecidableEq, Repr

/-- Removal of the first occurrence of `pat` from a character list, as
`String.prototype.replace` does with a string pattern and empty
replacement. -/
def removeFirstOcc (pat : List Char) : List Char → List Char
  | [] => []
  | c :: cs =>
    if pat.isPrefixOf (c :: cs) then (c :: cs).drop pat.length
    else c :: removeFirstOcc pat cs

/-- `auth.replace("Bearer ", "")`. -/
def stripBearer (auth : String) : String :=
  String.mk (removeFirstOcc "Bearer ".data auth.data)

/-- `requireAuth`: reads the Authorization header (empty string when
absent), strips the bearer marker, looks the token up in `db.tokens`, and
rejects with 401 when the resulting userId is falsy. -/
def requireAuth (db : Db) (req : Request) : Option String :=
  let auth := req.authorization.getD ""
  let token := stripBearer auth
  match db.tokens.lookup token with
  | none => none
  | some userId => if userId = "" then none else some userId

/-- `handleRequest`, parameterised over the sha256 password hash (external
crypto, kept abstract) and the fresh values drawn for this request.
Returns the database after the request together with the response sent. -/
def handleRequest (hashPassword : String → String) (db : Db) (fresh : Fresh)
    (req : Request) : Db × Response :=
  if req.method = Method.POST ∧ req.url = "/register" then
    match req.body with
    | none => (db, { status := 500, body := ResponseBody.error "server error" })
    | some body =>
      if falsyStr body.username ∨ falsyStr body.password then
        (db, { status := 400, body := ResponseBody.error "username and password required" })
      else
        let username := body.username.getD ""
        let password := body.password.getD ""
        match db.users.find? (fun u => u.username = username) with
        | some _ => (db, { status := 409, body := ResponseBody.error "user exists" })
        | none =>
          let user : User :=
            { id := fresh.newId, username := username,
              passwordHash := hashPassword password }
          ({ db with users := db.users ++ [user] },
           { status := 201, body := ResponseBody.registered user.id user.username })
  else if req.method = Method.POST ∧ req.url = "/login" then
    match req.body with
    | none => (db, { status := 500, body := ResponseBody.error "server error" })
    | some body =>
      let username := body.username.getD ""
      let password := body.password.getD ""
      match db.users.find? (fun u => u.username = username) with
      | none => (db, { status := 401, body := ResponseBody.error "invalid credentials" })
      | some user =>
        if user.passwordHash ≠ hashPassword password then
          (db, { status := 401, body := ResponseBody.error "invalid credentials" })
        else
          ({ db with tokens := (fresh.newToken, user.id) :: db.tokens },
           { status := 200, body := ResponseBody.token fresh.newToken })
  else if req.method = Method.POST ∧ req.url = "/notes" then
    match requireAuth db req with
    | none => (db, { status := 401, body := ResponseBody.error "Unauthorized" })
    | some userId =>
      match req.body with
      | none => (db, { status := 500, body := ResponseBody.error "server error" })
      | some body =>
        if falsyStr body.transcript then
          (db, { status := 400, body := ResponseBody.error "transcript required" })
        else
          let transcript := body.transcript.getD ""
          let note : Note :=
            { id := fresh.newId, userId := userId, transcript := transcript,
              notes := "Notes for: " ++ transcript, createdAt := fresh.now }
          ({ db with notes := db.notes ++ [note] },
           { status := 201, body := ResponseBody.note note })
  else if req.method = Method.GET ∧ req.url = "/notes" then
    match requireAuth db req with
    | none => (db, { status := 401, body := ResponseBody.error "Unauthorized" })
    | some userId =>
      (db, { status := 200,
             body := ResponseBody.noteList (db.notes.filter fun n => n.userId = userId) })
  else
    (db, { status := 404, body := ResponseBody.error "Not found" })

/-- Registration request for username `a`, password `p`. -/
def regReq : Request :=
  { method := Method.POST, url := "/register", authorization := none,
    body := some { username := some "a", password := some "p", transcript := none } }

/-- Login request with the same credentials. -/
def loginReq : Request :=
  { method := Method.POST, url := "/login", authorization := none,
    body := some { username := some "a", password := some "p", transcript := none } }

/-- Note-creation request bearing the token issued at login, with
transcript `x`. -/
def notesReq : Request :=
  { method := Method.POST, url := "/notes", authorization := some "Bearer t3",
    body := some { username := none, password := none, transcript := some "x" } }

/-- Scenario step 1: register username `a` against the empty database. -/
def step1 (hash : String → String) : Db × Response :=
  handleRequest hash emptyDb { newId := "u1", newToken := "t1", now := 0 } regReq

/-- Scenario step 2: register the same username again. -/
def step2 (hash : String → String) : Db × Response :=
  handleRequest hash (step1 hash).1 { newId := "u2", newToken := "t2", now := 1 } regReq

/-- Scenario step 3: log in with the correct credentials. -/
def step3 (hash : String → String) : Db × Response :=
  handleRequest hash (step2 hash).1 { newId := "u3", newToken := "t3", now := 2 } loginReq

/-- Scenario step 4: create a note with the issued bearer token. -/
def step4 (hash : String → String) : Db × Response :=
  handleRequest hash (step3 hash).1 { newId := "n1", newToken := "t4", now := 3 } notesReq

/-- A `GET /notes` request with the given Authorization header and body. -/
def getNotesReq (auth : Option String) (b : Option Body) : Request :=
  { method := Method.GET, url := "/notes", authorization := auth, body := b }

/-- A database holding notes of two different users and one valid token
binding for user `u1`. -/
def dbTwoUsers : Db :=
  { users := []
    notes := [{ id := "nA", userId := "u1", transcript := "x",
                notes := "Notes for: x", createdAt := 1 },
              { id := "nB", userId := "u2", transcript := "y",
                notes := "Notes for: y", createdAt := 2 },
              { id := "nC", userId := "u1", transcript := "z",
                notes := "Notes for: z", createdAt := 3 }]
    tokens := [("tok", "u1")] }

end NotesServer

namespace VoiceNotes

theorem stringAppendAssoc (a b c : String) : a ++ b ++ c = a ++ (b ++ c) := by
  cases a with
  | mk la =>
    cases b with
    | mk lb =>
      cases c with
      | mk lc =>
        show String.mk (la ++ lb ++ lc) = String.mk (la ++ (lb ++ lc))
        rw [List.append_assoc]

theorem handleMessage_turn (s : Session) (t : String) (f : Bool) :
    handleMessage s (mkTurn t f) =
      (if f then { s with fullTranscript := s.fullTranscript ++ t ++ " " } else s, []) := by
  cases f <;> simp [handleMessage, mkTurn]

theorem processMessages_turns (ts : List (String × Bool)) (s : Session) :
    (processMessages s (ts.map fun p => mkTurn p.1 p.2)).1.fullTranscript
      = s.fullTranscript ++ specFinalConcat ts := by
  induction ts generalizing s with
  | nil => simp [processMessages, specFinalConcat]
  | cons p rest ih =>
    obtain ⟨t, f⟩ := p
    cases f with
    | false =>
      simp [processMessages, handleMessage_turn, specFinalConcat, ih]
    | true =>
      simp [processMessages, handleMessage_turn, specFinalConcat, ih, stringAppendAssoc]

/-- C1: evaluation of the code at the failing input. A session with a
non-empty transcript and one recorded frame shut down by a remote channel
close produces two notes artifacts (the close handler generates notes,
then `cleanup` generates them again), and three when a `Termination`
message precedes the close; the claim requires exactly one for every
trigger. The audio artifact is produced once on these paths. There is no
`notesGenerated` guard anywhere in the code. -/
theorem c1_close_trigger_generates_notes_twice :
    notesCount (shutdownRun ShutdownTrigger.close sessionBM).2 = 2
    ∧ audioCount (shutdownRun ShutdownTrigger.close sessionBM).2 = 1
    ∧ notesCount (shutdownRun ShutdownTrigger.termination sessionBM).2 = 3
    ∧ notesCount (shutdownRun ShutdownTrigger.signal sessionBM).2 = 1
    ∧ audioCount (shutdownRun ShutdownTrigger.signal sessionBM).2 = 1 := by
  exact ⟨rfl, rfl, rfl, rfl, rfl⟩

/-- C2: evaluation of the code at the failing input. `cleanup` (the
program's finalize routine) called twice in succession on a session with a
non-empty transcript invokes the note generator and writes a notes
artifact on both calls — two artifacts in total — because no
`notesGenerated` flag exists in the code to guard the second call. -/
theorem c2_cleanup_twice_generates_notes_twice :
    notesCount ((cleanup sessionBM).2 ++ (cleanup (cleanup sessionBM).1).2) = 2 := by
  rfl

/-- C3: for every sequence of `Turn` events the resulting `fullTranscript`
is the arrival-order concatenation of the final turns' text, each followed
by one space; a non-final `Turn` leaves the state unchanged; and the
sequence `Begin`, `Turn{"buy milk", final}`, `Turn{"call mom", non-final}`,
`Turn{"call mom", final}`, `Termination` makes exactly one generator
invocation, with transcript `"buy milk call mom "`. -/
theorem c3_transcript_is_final_turns_concat :
    (∀ (ts : List (String × Bool)) (s : Session),
      (processMessages s (ts.map fun p => mkTurn p.1 p.2)).1.fullTranscript
        = s.fullTranscript ++ specFinalConcat ts)
    ∧ (∀ (s : Session) (t : String),
      handleMessage s (mkTurn t false) = (s, []))
    ∧ (processMessages initialSession
        [beginMsg, mkTurn "buy milk" true, mkTurn "call mom" false,
         mkTurn "call mom" true, terminationMsg]).2
        = [Artifact.notes "buy milk call mom "] := by
  refine ⟨processMessages_turns, ?_, ?_⟩
  · intro s t
    simp [handleMessage_turn]
  · rfl

theorem createWavHeader_expand (R C L : Nat) :
    createWavHeader R C L =
      [82, 73, 70, 70,
       (36 + L) % 256, (36 + L) / 256 % 256, (36 + L) / 65536 % 256, (36 + L) / 16777216 % 256,
       87, 65, 86, 69,
       102, 109, 116, 32,
       16, 0, 0, 0,
       1, 0,
       C % 256, C / 256 % 256,
       R % 256, R / 256 % 256, R / 65536 % 256, R / 16777216 % 256,
       R * C * 2 % 256, R * C * 2 / 256 % 256, R * C * 2 / 65536 % 256, R * C * 2 / 16777216 % 256,
       C * 2 % 256, C * 2 / 256 % 256,
       16, 0,
       100, 97, 116, 97,
       L % 256, L / 256 % 256, L / 65536 % 256, L / 16777216 % 256] := by
  rfl

theorem u32_readback (v : Nat) (h : v < 4294967296) :
    v % 256 + 256 * (v / 256 % 256) + 65536 * (v / 65536 % 256) +
      16777216 * (v / 16777216 % 256) = v := by
  omega

/-- C4: for every non-empty frame sequence the encoder output is the
44-byte header followed by the frames concatenated in order, the total
length is `44 + L`, the `ChunkSize`, `Subchunk2Size`, format code,
`BlockAlign`, `BitsPerSample` and `ByteRate` fields hold the claimed
little-endian values, and dropping the header recovers the original
payload bytes exactly. The field equalities require the values to fit the
fields, as `Buffer.writeUIntLE` requires in the source. -/
theorem c4_wav_header_and_roundtrip (frames : List (List Nat)) (R C : Nat)
    (hne : frames ≠ [])
    (hL : 36 + frames.flatten.length < 4294967296)
    (hbr : R * C * 2 < 4294967296)
    (hba : C * 2 < 65536) :
    ∃ w, encodeWav frames R C = WavOutcome.file w
      ∧ w.length = 44 + frames.flatten.length
      ∧ readUInt32LE w 4 = 36 + frames.flatten.length
      ∧ readUInt32LE w 40 = frames.flatten.length
      ∧ readUInt16LE w 20 = 1
      ∧ readUInt16LE w 32 = C * 2
      ∧ readUInt16LE w 34 = 16
      ∧ readUInt32LE w 28 = R * C * 2
      ∧ w.drop 44 = frames.flatten := by
  have hlen : frames.length ≠ 0 := fun h => hne (List.length_eq_zero.mp h)
  refine ⟨createWavHeader R C frames.flatten.length ++ frames.flatten,
    ?_, ?_, ?_, ?_, ?_, ?_, ?_, ?_, ?_⟩
  · simp only [encodeWav, if_neg hlen]
  · rw [createWavHeader_expand, List.length_append]
    rfl
  · have e : readUInt32LE (createWavHeader R C frames.flatten.length ++ frames.flatten) 4
        = (36 + frames.flatten.length) % 256
          + 256 * ((36 + frames.flatten.length) / 256 % 256)
          + 65536 * ((36 + frames.flatten.length) / 65536 % 256)
          + 16777216 * ((36 + frames.flatten.length) / 16777216 % 256) := by
      rw [createWavHeader_expand]
      rfl
    rw [e]
    exact u32_readback _ hL
  · have e : readUInt32LE (createWavHeader R C frames.flatten.length ++ frames.flatten) 40
        = frames.flatten.length % 256
          + 256 * (frames.flatten.length / 256 % 256)
          + 65536 * (frames.flatten.length / 65536 % 256)
          + 16777216 * (frames.flatten.length / 16777216 % 256) := by
      rw [createWavHeader_expand]
      rfl
    rw [e]
    exact u32_readback _ (by omega)
  · have e : readUInt16LE (createWavHeader R C frames.flatten.length ++ frames.flatten) 20
        = 1 + 256 * 0 := by
      rw [createWavHeader_expand]
      rfl
    rw [e]
  · have e : readUInt16LE (createWavHeader R C frames.flatten.length ++ frames.flatten) 32
        = C * 2 % 256 + 256 * (C * 2 / 256 % 256) := by
      rw [createWavHeader_expand]
      rfl
    rw [e]
    omega
  · have e : readUInt16LE (createWavHeader R C frames.flatten.length ++ frames.flatten) 34
        = 16 + 256 * 0 := by
      rw [createWavHeader_expand]
      rfl
    rw [e]
  · have e : readUInt32LE (createWavHeader R C frames.flatten.length ++ frames.flatten) 28
        = R * C * 2 % 256 + 256 * (R * C * 2 / 256 % 256)
          + 65536 * (R * C * 2 / 65536 % 256)
          + 16777216 * (R * C * 2 / 16777216 % 256) := by
      rw [createWavHeader_expand]
      rfl
    rw [e]
    exact u32_readback _ hbr
  · rw [createWavHeader_expand]
    rfl

/-- Witness for C4 at two frames of two bytes each, 16000 Hz mono. -/
theorem c4_wav_header_and_roundtrip_witness :
    ∃ w, encodeWav [[1, 2], [3, 4]] 16000 1 = WavOutcome.file w
      ∧ w.length = 48
      ∧ readUInt32LE w 4 = 40
      ∧ readUInt32LE w 40 = 4
      ∧ readUInt16LE w 20 = 1
      ∧ readUInt16LE w 32 = 2
      ∧ readUInt16LE w 34 = 16
      ∧ readUInt32LE w 28 = 32000
      ∧ w.drop 44 = [1, 2, 3, 4] :=
  c4_wav_header_and_roundtrip [[1, 2], [3, 4]] 16000 1
    (by decide) (by decide) (by decide) (by decide)

/-- C5: on an empty frame sequence the WAV step yields the explicit
no-data outcome — no file of any kind, in particular never a header-only
one — for any configuration and for the program's fixed configuration. -/
theorem c5_empty_frames_no_file :
    (∀ R C, encodeWav [] R C = WavOutcome.noData)
    ∧ saveWavFile [] = WavOutcome.noData
    ∧ (∀ bytes, saveWavFile [] ≠ WavOutcome.file bytes) := by
  refine ⟨fun R C => rfl, rfl, fun bytes h => ?_⟩
  simp [saveWavFile, encodeWav] at h

/-- C6 counterexample: with the AssemblyAI key unset (and an OpenAI key
present) the program does fail before any connection attempt with an
explicit message, but the process exit status is 0, refuting the claim's
non-zero exit status at this concrete input. -/
theorem c6_counterexample :
    ¬ ((runStart { assemblyaiApiKey := none, openaiApiKey := some "sk-test" }).connectionAttempted = false
       ∧ (runStart { assemblyaiApiKey := none, openaiApiKey := some "sk-test" }).errorMessage.isSome = true
       ∧ (runStart { assemblyaiApiKey := none, openaiApiKey := some "sk-test" }).exitCode ≠ 0) := by
  decide

/-- C6 as amended: if either required credential is absent at startup, the
program fails before any connection attempt (no channel opened, no audio
source started) and emits an explicit message, and the process then exits
with status 0. -/
theorem c6_missing_credentials_failfast (e : Env)
    (h : e.assemblyaiApiKey = none ∨ e.openaiApiKey = none) :
    (runStart e).connectionAttempted = false
    ∧ (runStart e).micStarted = false
    ∧ (runStart e).errorMessage.isSome = true
    ∧ (runStart e).exitCode = 0 := by
  rcases h with h | h
  · simp [runStart, effectiveAssemblyKey, h]
  · by_cases ha : effectiveAssemblyKey e = "YOUR_ASSEMBLYAI_API_KEY"
    · simp [runStart, ha]
    · simp [runStart, ha, effectiveOpenaiKey, h]

/-- Witness for the amended C6 at an environment missing the AssemblyAI key. -/
theorem c6_missing_credentials_failfast_witness :
    (runStart { assemblyaiApiKey := none, openaiApiKey := some "sk-test" }).connectionAttempted = false
    ∧ (runStart { assemblyaiApiKey := none, openaiApiKey := some "sk-test" }).micStarted = false
    ∧ (runStart { assemblyaiApiKey := none, openaiApiKey := some "sk-test" }).errorMessage.isSome = true
    ∧ (runStart { assemblyaiApiKey := none, openaiApiKey := some "sk-test" }).exitCode = 0 :=
  c6_missing_credentials_failfast
    { assemblyaiApiKey := none, openaiApiKey := some "sk-test" } (Or.inl rfl)

/-- C7: a malformed payload is dropped with the session state unchanged, a
parsed message with an unrecognized discriminant is a no-op, and a
malformed message never stops the processing of subsequent messages. -/
theorem c7_malformed_and_unknown_messages_are_noops :
    (∀ s, handleMessage s InboundMessage.malformed = (s, []))
    ∧ (∀ (s : Session) (m : ParsedMsg),
        m.type ≠ "Begin" → m.type ≠ "Turn" → m.type ≠ "Termination" →
        handleMessage s (InboundMessage.parsed m) = (s, []))
    ∧ (∀ (s : Session) (msgs : List InboundMessage),
        processMessages s (InboundMessage.malformed :: msgs) = processMessages s msgs) := by
  refine ⟨fun s => rfl, ?_, ?_⟩
  · intro s m h1 h2 h3
    simp [handleMessage, h1, h2, h3]
  · intro s msgs
    simp [processMessages, handleMessage]

/-- Witness for C7 at an unrecognized discriminant `Ping`. -/
theorem c7_malformed_and_unknown_messages_are_noops_witness :
    handleMessage initialSession
        (InboundMessage.parsed { type := "Ping", transcript := none, turn_is_formatted := false })
      = (initialSession, []) :=
  c7_malformed_and_unknown_messages_are_noops.2.1 initialSession
    { type := "Ping", transcript := none, turn_is_formatted := false }
    (by decide) (by decide) (by decide)

/-- C8: a frame is appended to `recordedFrames` and forwarded on the
channel exactly when the channel is open and `stopRequested` is false;
otherwise the state is unchanged and nothing is sent; after `cleanup` has
begun no frame is recorded or forwarded; and while the gate stays open the
recorded frames equal the forwarded frames, in arrival order. -/
theorem c8_frame_gating :
    (∀ (s : Session) (f : List Nat),
      ((handleFrame s f).1.recordedFrames = s.recordedFrames ++ [f]
        ∧ (handleFrame s f).2 = [f])
      ↔ (s.ws = some WsReady.open ∧ s.stopRequested = false))
    ∧ (∀ (s : Session) (f : List Nat),
        ¬ (s.ws = some WsReady.open ∧ s.stopRequested = false) →
        handleFrame s f = (s, []))
    ∧ (∀ (s : Session) (f : List Nat),
        handleFrame (cleanup s).1 f = ((cleanup s).1, []))
    ∧ (∀ (s : Session) (fs : List (List Nat)),
        s.ws = some WsReady.open → s.stopRequested = false →
        processFrames s fs = ({ s with recordedFrames := s.recordedFrames ++ fs }, fs)) := by
  refine ⟨?_, ?_, ?_, ?_⟩
  · intro s f
    constructor
    · intro ⟨h1, h2⟩
      by_contra hc
      rw [handleFrame, if_neg hc] at h2
      simp at h2
    · intro hc
      rw [handleFrame, if_pos hc]
      exact ⟨rfl, rfl⟩
  · intro s f hc
    rw [handleFrame, if_neg hc]
  · intro s f
    have hstop : (cleanup s).1.stopRequested = true := by
      simp only [cleanup]
      cases s.ws with
      | none => rfl
      | some r =>
        by_cases h : r = WsReady.open ∨ r = WsReady.connecting
        · simp [h]
        · simp [h]
    rw [handleFrame, if_neg]
    intro ⟨_, h2⟩
    rw [hstop] at h2
    exact Bool.noConfusion h2
  · intro s fs hws hstop
    induction fs generalizing s with
    | nil => simp [processFrames]
    | cons f rest ih =>
      rw [processFrames, handleFrame, if_pos ⟨hws, hstop⟩]
      have := ih { s with recordedFrames := s.recordedFrames ++ [f] } hws hstop
      simp [this]

/-- Witness for C8: two frames arriving on an open, non-stopping session
are recorded and forwarded in order. -/
theorem c8_frame_gating_witness :
    processFrames sessionBM [[7], [8]]
      = ({ sessionBM with recordedFrames := sessionBM.recordedFrames ++ [[7], [8]] },
         [[7], [8]]) :=
  c8_frame_gating.2.2.2 sessionBM [[7], [8]] rfl rfl

end VoiceNotes

namespace NotesServer

theorem step1_eq (hash : String → String) :
    step1 hash =
      ({ users := [{ id := "u1", username := "a", passwordHash := hash "p" }],
         notes := [], tokens := [] },
       { status := 201, body := ResponseBody.registered "u1" "a" }) := by
  rfl

theorem step2_eq (hash : String → String) :
    step2 hash =
      ((step1 hash).1,
       { status := 409, body := ResponseBody.error "user exists" }) := by
  rfl

theorem step3_eq (hash : String → String) :
    step3 hash =
      ({ users := [{ id := "u1", username := "a", passwordHash := hash "p" }],
         notes := [], tokens := [("t3", "u1")] },
       { status := 200, body := ResponseBody.token "t3" }) := by
  show (if hash "p" ≠ hash "p" then
          (({ users := [{ id := "u1", username := "a", passwordHash := hash "p" }],
              notes := [], tokens := [] } : Db),
           ({ status := 401, body := ResponseBody.error "invalid credentials" } : Response))
        else
          (({ users := [{ id := "u1", username := "a", passwordHash := hash "p" }],
              notes := [], tokens := [("t3", "u1")] } : Db),
           ({ status := 200, body := ResponseBody.token "t3" } : Response)))
      = (({ users := [{ id := "u1", username := "a", passwordHash := hash "p" }],
            notes := [], tokens := [("t3", "u1")] } : Db),
         ({ status := 200, body := ResponseBody.token "t3" } : Response))
  rw [if_neg fun h => h rfl]

theorem step4_eq (hash : String → String) :
    step4 hash =
      ({ users := [{ id := "u1", username := "a", passwordHash := hash "p" }],
         notes := [{ id := "n1", userId := "u1", transcript := "x",
                     notes := "Notes for: x", createdAt := 3 }],
         tokens := [("t3", "u1")] },
       { status := 201,
         body := ResponseBody.note
           { id := "n1", userId := "u1", transcript := "x",
             notes := "Notes for: x", createdAt := 3 } }) := by
  rw [step4, step3_eq]
  rfl

/-- C9: against the empty database, registering `a` returns 201 with its
id and username; registering `a` again returns 409; logging in with the
correct credentials returns 200 with the issued token; `POST /notes` with
that bearer token and transcript `x` returns 201 with a note whose notes
field is `Notes for: x`; registration missing a required field and note
creation missing a transcript return 400; an unauthenticated notes request
returns 401. Universally quantified over the password hash function, which
is external crypto. -/
theorem c9_http_scenario (hash : String → String) :
    (step1 hash).2 = { status := 201, body := ResponseBody.registered "u1" "a" }
    ∧ (step2 hash).2 = { status := 409, body := ResponseBody.error "user exists" }
    ∧ (step3 hash).2 = { status := 200, body := ResponseBody.token "t3" }
    ∧ (step4 hash).2 =
        { status := 201,
          body := ResponseBody.note
            { id := "n1", userId := "u1", transcript := "x",
              notes := "Notes for: x", createdAt := 3 } }
    ∧ (handleRequest hash emptyDb { newId := "u1", newToken := "t1", now := 0 }
        { method := Method.POST, url := "/register", authorization := none,
          body := some { username := some "a", password := none, transcript := none } }).2
        = { status := 400, body := ResponseBody.error "username and password required" }
    ∧ (handleRequest hash (step3 hash).1 { newId := "n1", newToken := "t4", now := 3 }
        { method := Method.POST, url := "/notes", authorization := some "Bearer t3",
          body := some { username := none, password := none, transcript := none } }).2
        = { status := 400, body := ResponseBody.error "transcript required" }
    ∧ (handleRequest hash (step3 hash).1 { newId := "n1", newToken := "t4", now := 3 }
        { method := Method.POST, url := "/notes", authorization := none,
          body := some { username := none, password := none, transcript := some "x" } }).2
        = { status := 401, body := ResponseBody.error "Unauthorized" } := by
  refine ⟨by rw [step1_eq], by rw [step2_eq], by rw [step3_eq], by rw [step4_eq],
    rfl, ?_, ?_⟩
  · rw [step3_eq]
    rfl
  · rw [step3_eq]
    rfl

/-- C10: a `GET /notes` request whose bearer token resolves to a user id
returns 200 with exactly the stored notes of that user, in insertion
order, leaves the database unchanged, and never includes a note of
another user. -/
theorem c10_get_notes_filters_by_user (hash : String → String) (db : Db) (fresh : Fresh)
    (auth : Option String) (b : Option Body) (uid : String)
    (hauth : requireAuth db (getNotesReq auth b) = some uid) :
    handleRequest hash db fresh (getNotesReq auth b)
      = (db, { status := 200,
               body := ResponseBody.noteList (db.notes.filter fun n => n.userId = uid) })
    ∧ (∀ n, n ∈ db.notes.filter (fun n => n.userId = uid) → n.userId = uid) := by
  constructor
  · simp only [handleRequest, getNotesReq]
    rw [if_neg (by simp), if_neg (by simp), if_neg (by simp), if_pos (by simp)]
    simp only [getNotesReq] at hauth
    rw [hauth]
  · intro n hn
    exact of_decide_eq_true (List.mem_filter.mp hn).2

/-- Witness for C10: user `u1` gets back exactly its own two notes from a
database also holding a note of user `u2`, with the database unchanged. -/
theorem c10_get_notes_filters_by_user_witness :
    handleRequest (fun s => s) dbTwoUsers { newId := "f", newToken := "g", now := 9 }
        (getNotesReq (some "Bearer tok") none)
      = (dbTwoUsers,
         { status := 200,
           body := ResponseBody.noteList
             (dbTwoUsers.notes.filter fun n => n.userId = "u1") })
    ∧ (∀ n, n ∈ dbTwoUsers.notes.filter (fun n => n.userId = "u1") → n.userId = "u1") :=
  c10_get_notes_filters_by_user (fun s => s) dbTwoUsers
    { newId := "f", newToken := "g", now := 9 } (some "Bearer tok") none "u1" rfl

end NotesServer
